import Mathlib

/-!
# Verification of the smart-mirror sensor/frame pipeline (`src/main.py`)

A shallow embedding of the core of `main.py`: the bounded frame buffer and
driver frame callback, the temperature conversions, the thermal-image
conversion `raw_to_8bit`, the rate-limited ambient poller
`get_ambient_temp_data`, and the render-loop display state machine.

Time values and sensor readings are modelled as rationals (`ℚ`); raw thermal
samples are natural numbers in the `uint16` range.
-/

namespace SmartMirror

/-- `BUF_SIZE = 10` (main.py line 41): capacity of the frame queue `q`. -/
def BUF_SIZE : ℕ := 10

/-- `settings["sleep_timeout_sec"] = 10` (main.py line 36). -/
def sleep_timeout_sec : ℚ := 10

/-- `settings["ambient_temp_delay_sec"] = 5` (main.py line 38). -/
def ambient_temp_delay_sec : ℚ := 5

/-- A frame handed to the driver callback (`uvc_frame`): reported geometry and
byte count, the row-major `uint16` payload the callback views, and `dataId`,
an abstract identity for the driver-owned memory block behind
`frame.contents.data` (used to express aliasing). -/
structure UvcFrame where
  width : ℕ
  height : ℕ
  dataBytes : ℕ
  dataId : ℕ
  payload : List ℕ
  deriving Repr, DecidableEq

/-- The sample enqueued by the callback.  `main.py` line 47 builds it with
`np.frombuffer(array_pointer.contents, ...)` — a view, "no copy" per the
comment on line 51 — so the sample carries `srcId`, the identity of the
driver buffer it still references, together with the viewed grid. -/
structure RawSample where
  srcId : ℕ
  grid : List ℕ
  deriving Repr, DecidableEq

/-- The guarded enqueue at main.py lines 62-63: `if not q.full(): q.put(data)`
on `q = Queue(BUF_SIZE)`.  `q.full()` holds when the queue holds `BUF_SIZE`
items; `q.put` appends at the tail.  Returns the new queue and whether the
sample was enqueued. -/
def tryPush (x : RawSample) (buf : List RawSample) : List RawSample × Bool :=
  if buf.length < BUF_SIZE then (buf ++ [x], true) else (buf, false)

/-- `queue.Queue.get`: removes and returns the oldest (head) element;
`none` signals an empty queue. -/
def tryPop (buf : List RawSample) : Option RawSample × List RawSample :=
  match buf with
  | [] => (none, [])
  | x :: xs => (some x, xs)

/-- `py_frame_callback` (main.py lines 45-63): build `data` as a no-copy view
of the driver buffer (lines 46-51), discard the frame if
`data_bytes != 2 * width * height` (lines 59-60), else enqueue if the queue
is not full (lines 62-63).  Returns the queue after the call. -/
def py_frame_callback (frame : UvcFrame) (buf : List RawSample) : List RawSample :=
  let data : RawSample := { srcId := frame.dataId, grid := frame.payload }
  if frame.dataBytes ≠ 2 * frame.width * frame.height then buf
  else (tryPush data buf).1

/-- `ktoc` (main.py lines 73-74): `(val - 27315) / 100.0`. -/
def ktoc (val : ℕ) : ℚ := ((val : ℚ) - 27315) / 100

/-- `ktof` (main.py lines 69-70): `1.8 * ktoc(val) + 32.0`. -/
def ktof (val : ℕ) : ℚ := 1.8 * ktoc val + 32.0

/-- Pushing a whole list of samples in order through `tryPush`, returning the
final queue and the number of pushes that were dropped. -/
def pushAll (xs : List RawSample) (buf : List RawSample) : List RawSample × ℕ :=
  match xs with
  | [] => (buf, 0)
  | x :: rest =>
      let r := tryPush x buf
      let t := pushAll rest r.1
      (t.1, t.2 + (if r.2 then 0 else 1))

/-- Round half to even, the rounding used both by Python's `round` and by
OpenCV's `cvRound`. -/
def roundHalfEven (q : ℚ) : ℤ :=
  if q - ⌊q⌋ < 1 / 2 then ⌊q⌋
  else if q - ⌊q⌋ > 1 / 2 then ⌊q⌋ + 1
  else if ⌊q⌋ % 2 = 0 then ⌊q⌋ else ⌊q⌋ + 1

/-- Python's `round(x, 2)` (main.py lines 285-286): round to 2 decimal
digits, half to even. -/
def round2 (x : ℚ) : ℚ := (roundHalfEven (x * 100) : ℚ) / 100

/-- The `last_data_set` dictionary `{"temp": temp, "hum": hum}` built at
main.py line 288. -/
structure AmbientData where
  temp : ℚ
  hum : ℚ
  deriving Repr, DecidableEq

/-- `get_ambient_temp_data` (main.py lines 282-291).  `sense` is the pair
`(hum, temp)` the physical sensor would deliver if read.  If
`now - last_req_time > ambient_temp_delay_sec` the sensor is read, the two
values are rounded to 2 decimals, and the fresh dictionary is returned with
the request time set to `now`; otherwise both arguments pass through
untouched.  The `Bool` records whether `tmpsensor.sense()` was invoked. -/
def get_ambient_temp_data (now : ℚ) (sense : ℚ × ℚ) (last_req_time : ℚ)
    (last_data_set : AmbientData) : AmbientData × ℚ × Bool :=
  if now - last_req_time > ambient_temp_delay_sec then
    let hum := round2 sense.1
    let temp := round2 sense.2
    ({ temp := temp, hum := hum }, now, true)
  else
    (last_data_set, last_req_time, false)

/-- Maximum of a list of naturals (`cv2.minMaxLoc` / OpenCV's min-max scan);
`0` on the empty list. -/
def listMax : List ℕ → ℕ
  | [] => 0
  | x :: xs => max x (listMax xs)

/-- Minimum of a list of naturals; `0` on the empty list. -/
def listMin : List ℕ → ℕ
  | [] => 0
  | [x] => x
  | x :: y :: xs => min x (listMin (y :: xs))

/-- `cv2.normalize(data, data, 0, 65535, cv2.NORM_MINMAX)` (main.py line 78)
on a row-major `uint16` grid: each value becomes
`cvRound((x - min) * 65535 / (max - min))`; when `max = min` OpenCV uses
scale `0`, producing `alpha = 0` everywhere. -/
def normalizeMinMax (g : List ℕ) : List ℕ :=
  if listMax g = listMin g then g.map (fun _ => 0)
  else g.map (fun x : ℕ =>
    (roundHalfEven (((x : ℚ) - (listMin g : ℚ)) * 65535 /
      ((listMax g : ℚ) - (listMin g : ℚ)))).toNat)

/-- `np.right_shift(data, 8, data)` (main.py line 79). -/
def rightShift8 (g : List ℕ) : List ℕ := g.map (fun x => x / 256)

/-- `np.uint8(data)` (main.py line 80): truncation to 8 bits. -/
def toUint8 (g : List ℕ) : List ℕ := g.map (fun x => x % 256)

/-- `cv2.cvtColor(·, cv2.COLOR_GRAY2RGB)` (main.py line 80): replicate each
gray value into a freshly allocated 3-channel pixel. -/
def cvtGray2RGB (g : List ℕ) : List (ℕ × ℕ × ℕ) := g.map (fun v => (v, v, v))

/-- `raw_to_8bit` (main.py lines 77-80).  Lines 78-79 write into `data`
itself (`dst = data`, `out = data`), so the call mutates its argument; the
first component is the state of the input array after the call, the second
the returned RGB image. -/
def raw_to_8bit (data : List ℕ) : List ℕ × List (ℕ × ℕ × ℕ) :=
  let d1 := normalizeMinMax data
  let d2 := rightShift8 d1
  (d2, cvtGray2RGB (toUint8 d2))

/-- Observable side effects of one render-loop tick: a physical ambient
sensor read (`tmpsensor.sense()`), a `kill_gui(panels)` call, a
`show_gui(panels)` call. -/
inductive Event where
  | ambientRead
  | killGui
  | showGui
  deriving Repr, DecidableEq

/-- The loop-carried variables of the `__main__` render loop:
`start_time` (line 421, reset at 461 and 469), `is_gui_shown` (line 418,
never reassigned), and the ambient cache `data_set` / `last_ambient_temp_req_time`
(lines 396-397, updated at 448-452). -/
structure LoopState where
  start_time : ℚ
  is_gui_shown : Bool
  data_set : AmbientData
  last_req_time : ℚ
  deriving Repr, DecidableEq

/-- The branch condition of line 427: the tick is evaluated in the ACTIVE
arm iff `time_passed < settings["sleep_timeout_sec"]`. -/
def isActiveTick (now : ℚ) (s : LoopState) : Bool :=
  now - s.start_time < sleep_timeout_sec

/-- One iteration of the `while True` loop (main.py lines 424-474).
ACTIVE arm (427-461): refresh the ambient cache through
`get_ambient_temp_data`, and on motion reset `start_time = now`.
PASSIVE arm (463-469): `kill_gui(panels) if is_gui_shown else False`, then on
motion `show_gui(panels)` and reset `start_time = now`.  `is_gui_shown` is
never reassigned anywhere in the loop.  Label updates, tkinter refresh and
the frame-budget sleep carry no modelled state.  Returns the new state and
the tick's side-effect events in program order. -/
def tick (now : ℚ) (motion : Bool) (sense : ℚ × ℚ) (s : LoopState) :
    LoopState × List Event :=
  if now - s.start_time < sleep_timeout_sec then
    let r := get_ambient_temp_data now sense s.last_req_time s.data_set
    let evs := if r.2.2 then [Event.ambientRead] else []
    ({ s with data_set := r.1, last_req_time := r.2.1,
              start_time := if motion then now else s.start_time }, evs)
  else
    let evs := if s.is_gui_shown then [Event.killGui] else []
    if motion then
      ({ s with start_time := now }, evs ++ [Event.showGui])
    else
      (s, evs)

/-- Run a sequence of ticks, each given as `(now, motion, sense)`,
concatenating the emitted events. -/
def runTicks (inputs : List (ℚ × Bool × (ℚ × ℚ))) (s : LoopState) :
    LoopState × List Event :=
  match inputs with
  | [] => (s, [])
  | (now, motion, sense) :: rest =>
      let r := tick now motion sense s
      let t := runTicks rest r.1
      (t.1, r.2 ++ t.2)

/-- Whole-program state: the frame queue `q` shared between the driver
callback and the render loop, and the loop-carried variables. -/
structure SysState where
  buf : List RawSample
  loop : LoopState
  deriving Repr, DecidableEq

/-- An event of the running system: a completed driver frame (invoking
`py_frame_callback` on the capture thread) or one render-loop tick. -/
inductive SysEvent where
  | frame (f : UvcFrame)
  | tick (now : ℚ) (motion : Bool) (sense : ℚ × ℚ)

/-- One system step.  A `frame` event runs `py_frame_callback` on `q`.  A
`tick` event runs the loop body; the body (lines 424-474) contains no
`q.get` — the consumer code at lines 430-445 is commented out — so the tick
leaves `q` untouched. -/
def sysStep (e : SysEvent) (s : SysState) : SysState :=
  match e with
  | .frame f => { s with buf := py_frame_callback f s.buf }
  | .tick now motion sense => { s with loop := (tick now motion sense s.loop).1 }

/-- Run a sequence of system events. -/
def runSys (es : List SysEvent) (s : SysState) : SysState :=
  match es with
  | [] => s
  | e :: rest => runSys rest (sysStep e s)

/-! ## Helper lemmas -/

theorem listMin_le {v : ℕ} {g : List ℕ} (hv : v ∈ g) : listMin g ≤ v := by
  induction g with
  | nil => cases hv
  | cons x xs ih =>
    cases xs with
    | nil =>
      rcases List.mem_cons.mp hv with h | h
      · subst h; exact le_rfl
      · cases h
    | cons y ys =>
      rcases List.mem_cons.mp hv with h | h
      · subst h; exact min_le_left _ _
      · exact le_trans (min_le_right _ _) (ih h)

theorem le_listMax {v : ℕ} {g : List ℕ} (hv : v ∈ g) : v ≤ listMax g := by
  induction g with
  | nil => cases hv
  | cons x xs ih =>
    rcases List.mem_cons.mp hv with h | h
    · subst h; exact le_max_left _ _
    · exact le_trans (ih h) (le_max_right _ _)

theorem roundHalfEven_le {q : ℚ} {n : ℤ} (h : q ≤ n) : roundHalfEven q ≤ n := by
  have hfl : ⌊q⌋ ≤ n := by
    have := Int.floor_le_floor h
    rwa [Int.floor_intCast] at this
  have hfl1 : q - ⌊q⌋ ≥ 1 / 2 → ⌊q⌋ + 1 ≤ n := by
    intro hr
    have hq : (⌊q⌋ : ℚ) + 1 / 2 ≤ (n : ℚ) := by linarith
    have : (⌊q⌋ : ℚ) < (n : ℚ) := by linarith
    exact Int.add_one_le_iff.mpr (by exact_mod_cast this)
  unfold roundHalfEven
  split
  · exact hfl
  · split
    · exact hfl1 (by linarith)
    · split
      · exact hfl
      · exact hfl1 (by linarith)

theorem normalizeMinMax_le (g : List ℕ) : ∀ x ∈ normalizeMinMax g, x ≤ 65535 := by
  intro x hx
  unfold normalizeMinMax at hx
  split at hx
  · rcases List.mem_map.mp hx with ⟨v, _, rfl⟩
    exact Nat.zero_le _
  · rcases List.mem_map.mp hx with ⟨v, hv, rfl⟩
    rename_i hne
    rw [Int.toNat_le]
    apply roundHalfEven_le
    have h0 : listMin g ≤ v := listMin_le hv
    have h0' : v ≤ listMax g := le_listMax hv
    have h1 : ((listMin g : ℚ)) ≤ (v : ℚ) := by exact_mod_cast h0
    have h2 : ((v : ℚ)) ≤ ((listMax g : ℚ)) := by exact_mod_cast h0'
    have hlt : ((listMin g : ℚ)) < ((listMax g : ℚ)) := by
      have : listMin g < listMax g := lt_of_le_of_ne (le_trans h0 h0') (fun hc => hne hc.symm)
      exact_mod_cast this
    rw [div_le_iff₀ (by linarith)]
    push_cast
    linarith

theorem normalizeMinMax_length (g : List ℕ) :
    (normalizeMinMax g).length = g.length := by
  unfold normalizeMinMax
  split <;> simp

/-! ## Claim theorems -/

/-- C6: for every `raw` in the full uint16 domain, `ktof raw` equals
`1.8 * ((raw - 27315) / 100) + 32` with `ktoc raw = (raw - 27315) / 100`;
both conversions are total functions of the raw value (they are defined for
every `raw`, with no failure mode), and `ktof` is monotonic non-decreasing
in `raw`. -/
theorem C6_ktof_formula_and_monotone :
    (∀ raw : ℕ, raw ≤ 65535 →
      ktof raw = 1.8 * (((raw : ℚ) - 27315) / 100) + 32.0 ∧
      ktoc raw = ((raw : ℚ) - 27315) / 100) ∧
    (∀ a b : ℕ, a ≤ 65535 → b ≤ 65535 → a ≤ b → ktof a ≤ ktof b) := by
  constructor
  · intro raw _
    exact ⟨rfl, rfl⟩
  · intro a b _ _ hab
    have h : (a : ℚ) ≤ (b : ℚ) := by exact_mod_cast hab
    unfold ktof ktoc
    have h18 : (1.8 : ℚ) = 9 / 5 := by norm_num
    rw [h18]
    linarith

/-- Witness for C6 at `raw = 30000` and the pair `(0, 65535)`. -/
theorem C6_witness :
    (30000 : ℕ) ≤ 65535 ∧
    ktof 30000 = 1.8 * (((30000 : ℕ) : ℚ) - 27315) / 100 + 32.0 ∧
    ktof 0 ≤ ktof 65535 := by
  refine ⟨by norm_num, ?_, C6_ktof_formula_and_monotone.2 0 65535 (by norm_num) (by norm_num) (by norm_num)⟩
  have h := (C6_ktof_formula_and_monotone.1 30000 (by norm_num)).1
  rw [h]
  ring

/-- C5: a frame whose reported `data_bytes` differs from
`2 * width * height` is discarded silently by `py_frame_callback`: the queue
(contents and size) is exactly what it was, and the callback — a total
function in this model — returns without any observable exception or
upward report. -/
theorem C5_malformed_frame_discarded (frame : UvcFrame) (buf : List RawSample)
    (h : frame.dataBytes ≠ 2 * frame.width * frame.height) :
    py_frame_callback frame buf = buf ∧
    (py_frame_callback frame buf).length = buf.length := by
  unfold py_frame_callback
  rw [if_pos h]
  exact ⟨rfl, rfl⟩

/-- Witness for C5: a 2×1 frame reporting 5 bytes instead of 4, against an
empty queue and against a one-element queue. -/
theorem C5_witness :
    ((⟨2, 1, 5, 0, [300, 400]⟩ : UvcFrame).dataBytes ≠
      2 * (⟨2, 1, 5, 0, [300, 400]⟩ : UvcFrame).width * (⟨2, 1, 5, 0, [300, 400]⟩ : UvcFrame).height) ∧
    py_frame_callback ⟨2, 1, 5, 0, [300, 400]⟩ [⟨9, [7]⟩] = [⟨9, [7]⟩] := by
  refine ⟨by decide, ?_⟩
  exact (C5_malformed_frame_discarded ⟨2, 1, 5, 0, [300, 400]⟩ [⟨9, [7]⟩] (by decide)).1

/-- C10 counterexample: the claim says the payload is copied or moved before
enqueueing, so the buffered sample never aliases driver-owned memory.  In
the code the sample is the `np.frombuffer` view itself ("no copy",
main.py line 51): for the concrete well-formed frame below, the sample that
ends up in the queue carries the driver buffer's identity (`srcId = dataId
= 7`), i.e. it still references the driver-owned memory. -/
theorem C10_counterexample :
    py_frame_callback ⟨2, 1, 4, 7, [300, 400]⟩ [] =
      [{ srcId := 7, grid := [300, 400] }] ∧
    (7 : ℕ) = (⟨2, 1, 4, 7, [300, 400]⟩ : UvcFrame).dataId := by
  exact ⟨by decide, rfl⟩

/-- C10 amended: on every invocation of the frame callback that enqueues a
sample, the enqueued `RawThermalSample` is the no-copy `np.frombuffer` view
of the driver's frame memory: it carries the driver buffer's identity
(aliasing it) and its payload, and it is appended at the tail of the
queue. -/
theorem C10_enqueued_sample_aliases_driver (frame : UvcFrame) (buf : List RawSample)
    (hbytes : frame.dataBytes = 2 * frame.width * frame.height)
    (hroom : buf.length < BUF_SIZE) :
    py_frame_callback frame buf =
      buf ++ [{ srcId := frame.dataId, grid := frame.payload }] := by
  unfold py_frame_callback tryPush
  rw [if_neg (by simp [hbytes]), if_pos hroom]

/-- Witness for C10 amended: a well-formed 2×1 frame pushed into an empty
queue. -/
theorem C10_witness :
    ((⟨2, 1, 4, 7, [300, 400]⟩ : UvcFrame).dataBytes =
      2 * (⟨2, 1, 4, 7, [300, 400]⟩ : UvcFrame).width * (⟨2, 1, 4, 7, [300, 400]⟩ : UvcFrame).height) ∧
    ([] : List RawSample).length < BUF_SIZE ∧
    py_frame_callback ⟨2, 1, 4, 7, [300, 400]⟩ [] =
      [] ++ [{ srcId := (⟨2, 1, 4, 7, [300, 400]⟩ : UvcFrame).dataId,
               grid := (⟨2, 1, 4, 7, [300, 400]⟩ : UvcFrame).payload }] := by
  exact ⟨by decide, by decide,
    C10_enqueued_sample_aliases_driver ⟨2, 1, 4, 7, [300, 400]⟩ [] (by decide) (by decide)⟩

/-- C7 counterexample: the claim says the input grid is unchanged after the
call.  `cv2.normalize(data, data, ...)` and `np.right_shift(data, 8, data)`
write into the input: on the grid `[0, 65535]` the array holds `[0, 255]`
after `raw_to_8bit` returns. -/
theorem C7_counterexample :
    (raw_to_8bit [0, 65535]).1 = [0, 255] ∧
    (raw_to_8bit [0, 65535]).1 ≠ [0, 65535] := by
  have h : (raw_to_8bit [0, 65535]).1 = [0, 255] := by
    show rightShift8 (normalizeMinMax [0, 65535]) = [0, 255]
    simp only [normalizeMinMax, listMin, listMax, rightShift8, roundHalfEven, List.map]
    norm_num
    decide
  exact ⟨h, by rw [h]; decide⟩

/-- C7 amended: `raw_to_8bit` holds no state across calls — its result is a
function of its input alone — and it returns a freshly built 3-channel image,
but it mutates the input grid in place: after the call the input holds the
normalized, right-shifted values.  Concretely, for every input grid the
post-call grid has the input's length with every entry at most 255, and the
returned image is exactly the 3-channel replication of the post-call
grid. -/
theorem C7_raw_to_8bit_mutates_input (data : List ℕ) :
    (∀ v ∈ (raw_to_8bit data).1, v ≤ 255) ∧
    (raw_to_8bit data).2 = (raw_to_8bit data).1.map (fun v => (v, v, v)) ∧
    (raw_to_8bit data).1.length = data.length := by
  have h1 : ∀ v ∈ rightShift8 (normalizeMinMax data), v ≤ 255 := by
    intro v hv
    rcases List.mem_map.mp hv with ⟨w, hw, rfl⟩
    have := normalizeMinMax_le data w hw
    omega
  refine ⟨h1, ?_, ?_⟩
  · show cvtGray2RGB (toUint8 (rightShift8 (normalizeMinMax data))) = _
    unfold cvtGray2RGB toUint8
    rw [List.map_map]
    apply List.map_congr_left
    intro v hv
    have : v % 256 = v := Nat.mod_eq_of_lt (by have := h1 v hv; omega)
    simp [Function.comp, this]
  · show (rightShift8 (normalizeMinMax data)).length = data.length
    unfold rightShift8
    rw [List.length_map, normalizeMinMax_length]

theorem pushAll_spec (xs : List RawSample) (buf : List RawSample)
    (h : buf.length ≤ BUF_SIZE) :
    (pushAll xs buf).1 = buf ++ xs.take (BUF_SIZE - buf.length) ∧
    (pushAll xs buf).2 = xs.length - (BUF_SIZE - buf.length) := by
  induction xs generalizing buf with
  | nil => simp [pushAll]
  | cons x rest ih =>
    simp only [pushAll, tryPush]
    by_cases hlt : buf.length < BUF_SIZE
    · obtain ⟨n, hn⟩ : ∃ n, BUF_SIZE - buf.length = n + 1 :=
        ⟨BUF_SIZE - buf.length - 1, by omega⟩
      simp only [if_pos hlt]
      obtain ⟨ih1, ih2⟩ := ih (buf ++ [x]) (by simp; omega)
      have hlen : BUF_SIZE - (buf ++ [x]).length = n := by simp; omega
      rw [hlen] at ih1 ih2
      constructor
      · show (pushAll rest (buf ++ [x])).1 = _
        rw [ih1, hn, List.take_succ_cons, List.append_assoc]
        rfl
      · show (pushAll rest (buf ++ [x])).2 + 0 = _
        rw [ih2, hn]
        simp
    · simp only [if_neg hlt]
      obtain ⟨ih1, ih2⟩ := ih buf h
      have h0 : BUF_SIZE - buf.length = 0 := by omega
      rw [h0] at ih1 ih2
      constructor
      · show (pushAll rest buf).1 = _
        rw [ih1, h0]
        simp
      · show (pushAll rest buf).2 + 1 = _
        rw [ih2, h0]
        simp

/-- C2: pushing `BUF_SIZE + k` samples through the guarded enqueue with no
intervening pops retains exactly the first `BUF_SIZE` samples in FIFO order,
reports all `k` extra pushes as dropped (none blocks, none overwrites a
retained slot), and a subsequent pop returns the oldest retained sample. -/
theorem C2_bounded_buffer_fifo (xs : List RawSample) (k : ℕ)
    (h : xs.length = BUF_SIZE + k) :
    (pushAll xs []).1 = xs.take BUF_SIZE ∧
    (pushAll xs []).2 = k ∧
    (tryPop (pushAll xs []).1).1 = xs.head? := by
  obtain ⟨h1, h2⟩ := pushAll_spec xs [] (by simp)
  simp only [List.length_nil, Nat.sub_zero, List.nil_append] at h1 h2
  refine ⟨h1, by omega, ?_⟩
  cases xs with
  | nil =>
    exfalso
    rw [List.length_nil] at h
    exact absurd h (by unfold BUF_SIZE; omega)
  | cons a as =>
    rw [h1]
    show (tryPop ((a :: as).take (9 + 1))).1 = _
    rw [List.take_succ_cons]
    rfl

/-- Witness for C2 with eleven concrete samples (`k = 1`). -/
theorem C2_witness :
    ([⟨0, [0]⟩, ⟨0, [1]⟩, ⟨0, [2]⟩, ⟨0, [3]⟩, ⟨0, [4]⟩, ⟨0, [5]⟩, ⟨0, [6]⟩,
      ⟨0, [7]⟩, ⟨0, [8]⟩, ⟨0, [9]⟩, ⟨0, [10]⟩] : List RawSample).length = BUF_SIZE + 1 ∧
    (pushAll [⟨0, [0]⟩, ⟨0, [1]⟩, ⟨0, [2]⟩, ⟨0, [3]⟩, ⟨0, [4]⟩, ⟨0, [5]⟩, ⟨0, [6]⟩,
      ⟨0, [7]⟩, ⟨0, [8]⟩, ⟨0, [9]⟩, ⟨0, [10]⟩] []).1 =
      ([⟨0, [0]⟩, ⟨0, [1]⟩, ⟨0, [2]⟩, ⟨0, [3]⟩, ⟨0, [4]⟩, ⟨0, [5]⟩, ⟨0, [6]⟩,
        ⟨0, [7]⟩, ⟨0, [8]⟩, ⟨0, [9]⟩, ⟨0, [10]⟩] : List RawSample).take BUF_SIZE ∧
    (pushAll [⟨0, [0]⟩, ⟨0, [1]⟩, ⟨0, [2]⟩, ⟨0, [3]⟩, ⟨0, [4]⟩, ⟨0, [5]⟩, ⟨0, [6]⟩,
      ⟨0, [7]⟩, ⟨0, [8]⟩, ⟨0, [9]⟩, ⟨0, [10]⟩] []).2 = 1 ∧
    (tryPop (pushAll [⟨0, [0]⟩, ⟨0, [1]⟩, ⟨0, [2]⟩, ⟨0, [3]⟩, ⟨0, [4]⟩, ⟨0, [5]⟩, ⟨0, [6]⟩,
      ⟨0, [7]⟩, ⟨0, [8]⟩, ⟨0, [9]⟩, ⟨0, [10]⟩] []).1).1 =
      ([⟨0, [0]⟩, ⟨0, [1]⟩, ⟨0, [2]⟩, ⟨0, [3]⟩, ⟨0, [4]⟩, ⟨0, [5]⟩, ⟨0, [6]⟩,
        ⟨0, [7]⟩, ⟨0, [8]⟩, ⟨0, [9]⟩, ⟨0, [10]⟩] : List RawSample).head? := by
  exact ⟨by decide, C2_bounded_buffer_fifo _ 1 (by decide)⟩

/-- C3: when `now - last_req_time ≤ ambient_temp_delay_sec` the poller
passes the cached reading and the old request time through and performs no
physical sensor read; when `now - last_req_time > ambient_temp_delay_sec`
it performs exactly one read, rounds temperature and humidity to 2 decimal
digits, and returns the fresh reading with the request time set to `now`.
Consequently a call past the interval followed by one within it performs
exactly one physical read in total. -/
theorem C3_ambient_poller_cache (now now' : ℚ) (sense sense' : ℚ × ℚ)
    (last : ℚ) (d : AmbientData) :
    (now - last ≤ ambient_temp_delay_sec →
      get_ambient_temp_data now sense last d = (d, last, false)) ∧
    (now - last > ambient_temp_delay_sec →
      get_ambient_temp_data now sense last d =
        ({ temp := round2 sense.2, hum := round2 sense.1 }, now, true)) ∧
    (now - last > ambient_temp_delay_sec → now' - now ≤ ambient_temp_delay_sec →
      (get_ambient_temp_data now sense last d).2.2 = true ∧
      (get_ambient_temp_data now' sense'
        (get_ambient_temp_data now sense last d).2.1
        (get_ambient_temp_data now sense last d).1).2.2 = false) := by
  refine ⟨fun hle => ?_, fun hgt => ?_, fun hgt hle => ?_⟩
  · unfold get_ambient_temp_data
    rw [if_neg (not_lt.mpr hle)]
  · unfold get_ambient_temp_data
    rw [if_pos hgt]
  · unfold get_ambient_temp_data
    rw [if_pos hgt]
    exact ⟨rfl, by simp [if_neg (not_lt.mpr hle)]⟩

/-- Witness for C3: first call at `now = 6` with the cache stamped at `0`
(reads), second call at `now' = 8` (cache hit). -/
theorem C3_witness :
    ¬ ((3 : ℚ) - 0 > ambient_temp_delay_sec) ∧
    get_ambient_temp_data 3 (1, 2) 0 ⟨20, 50⟩ = (⟨20, 50⟩, 0, false) ∧
    ((6 : ℚ) - 0 > ambient_temp_delay_sec) ∧
    get_ambient_temp_data 6 (50.555, 20.125) 0 ⟨20, 50⟩ =
      ({ temp := round2 20.125, hum := round2 50.555 }, 6, true) ∧
    (get_ambient_temp_data 8 (1, 2)
      (get_ambient_temp_data 6 (50.555, 20.125) 0 ⟨20, 50⟩).2.1
      (get_ambient_temp_data 6 (50.555, 20.125) 0 ⟨20, 50⟩).1).2.2 = false := by
  refine ⟨by norm_num [ambient_temp_delay_sec], ?_, by norm_num [ambient_temp_delay_sec], ?_, ?_⟩
  · exact (C3_ambient_poller_cache 3 8 (1, 2) (1, 2) 0 ⟨20, 50⟩).1
      (by norm_num [ambient_temp_delay_sec])
  · exact (C3_ambient_poller_cache 6 8 (50.555, 20.125) (1, 2) 0 ⟨20, 50⟩).2.1
      (by norm_num [ambient_temp_delay_sec])
  · exact ((C3_ambient_poller_cache 6 8 (50.555, 20.125) (1, 2) 0 ⟨20, 50⟩).2.2
      (by norm_num [ambient_temp_delay_sec]) (by norm_num [ambient_temp_delay_sec])).2

/-- C4: in PASSIVE (the tick's `time_passed < sleep_timeout_sec` test
fails), detected motion shows the panels (exactly one `show_gui` call on
that tick) and resets `start_time = now`, so any later tick whose elapsed
time since `now` is strictly below the timeout is evaluated in the ACTIVE
arm; in ACTIVE, detected motion resets `start_time = now` and the machine
stays in the ACTIVE arm for the same window. -/
theorem C4_motion_transitions (now : ℚ) (sense : ℚ × ℚ) (s : LoopState) :
    (¬ (now - s.start_time < sleep_timeout_sec) →
      (tick now true sense s).1.start_time = now ∧
      (tick now true sense s).2.count Event.showGui = 1 ∧
      ∀ now' : ℚ, now' - now < sleep_timeout_sec →
        isActiveTick now' (tick now true sense s).1 = true) ∧
    ((now - s.start_time < sleep_timeout_sec) →
      (tick now true sense s).1.start_time = now ∧
      ∀ now' : ℚ, now' - now < sleep_timeout_sec →
        isActiveTick now' (tick now true sense s).1 = true) := by
  constructor
  · intro h
    have e1 : tick now true sense s =
        ({ s with start_time := now },
          (if s.is_gui_shown then [Event.killGui] else []) ++ [Event.showGui]) := by
      unfold tick
      rw [if_neg h]
      simp
    rw [e1]
    refine ⟨rfl, ?_, ?_⟩
    · show ((if s.is_gui_shown = true then [Event.killGui] else []) ++
        [Event.showGui]).count Event.showGui = 1
      cases s.is_gui_shown <;> decide
    · intro now' h'
      simp only [isActiveTick, decide_eq_true_eq]
      exact h'
  · intro h
    have e1 : (tick now true sense s).1.start_time = now := by
      simp only [tick, if_pos h]
      simp
    refine ⟨e1, fun now' h' => ?_⟩
    simp only [isActiveTick, e1, decide_eq_true_eq]
    exact h'

/-- Witness for C4: a PASSIVE tick at `now = 15` from boot state
(`start_time = 0`), probed again at `now' = 24`, and an ACTIVE tick at
`now = 5`, probed at `now' = 14`. -/
theorem C4_witness :
    (¬ ((15 : ℚ) - (⟨0, true, ⟨0, 0⟩, 0⟩ : LoopState).start_time < sleep_timeout_sec)) ∧
    (tick 15 true (0, 0) ⟨0, true, ⟨0, 0⟩, 0⟩).1.start_time = 15 ∧
    (tick 15 true (0, 0) ⟨0, true, ⟨0, 0⟩, 0⟩).2.count Event.showGui = 1 ∧
    isActiveTick 24 (tick 15 true (0, 0) ⟨0, true, ⟨0, 0⟩, 0⟩).1 = true ∧
    ((5 : ℚ) - (⟨0, true, ⟨0, 0⟩, 0⟩ : LoopState).start_time < sleep_timeout_sec) ∧
    (tick 5 true (0, 0) ⟨0, true, ⟨0, 0⟩, 0⟩).1.start_time = 5 ∧
    isActiveTick 14 (tick 5 true (0, 0) ⟨0, true, ⟨0, 0⟩, 0⟩).1 = true := by
  have hp : ¬ ((15 : ℚ) - (⟨0, true, ⟨0, 0⟩, 0⟩ : LoopState).start_time < sleep_timeout_sec) := by
    norm_num [sleep_timeout_sec]
  have ha : ((5 : ℚ) - (⟨0, true, ⟨0, 0⟩, 0⟩ : LoopState).start_time < sleep_timeout_sec) := by
    norm_num [sleep_timeout_sec]
  obtain ⟨h1, h2, h3⟩ := (C4_motion_transitions 15 (0, 0) ⟨0, true, ⟨0, 0⟩, 0⟩).1 hp
  obtain ⟨h4, h5⟩ := (C4_motion_transitions 5 (0, 0) ⟨0, true, ⟨0, 0⟩, 0⟩).2 ha
  exact ⟨hp, h1, h2, h3 24 (by norm_num [sleep_timeout_sec]), ha, h4,
    h5 14 (by norm_num [sleep_timeout_sec])⟩

/-- C9: a tick evaluated in the PASSIVE arm performs no ambient sensor
read and leaves the cached reading and its timestamp untouched, whatever
the motion sample. -/
theorem C9_no_ambient_poll_in_passive (now : ℚ) (motion : Bool) (sense : ℚ × ℚ)
    (s : LoopState) (h : isActiveTick now s = false) :
    (tick now motion sense s).2.count Event.ambientRead = 0 ∧
    (tick now motion sense s).1.data_set = s.data_set ∧
    (tick now motion sense s).1.last_req_time = s.last_req_time := by
  have h' : ¬ (now - s.start_time < sleep_timeout_sec) := by
    simpa [isActiveTick] using h
  unfold tick
  rw [if_neg h']
  cases motion <;> cases hgs : s.is_gui_shown <;> simp

/-- Witness for C9: a PASSIVE tick at `now = 20` from boot state with
motion present. -/
theorem C9_witness :
    isActiveTick 20 (⟨0, true, ⟨7, 8⟩, 2⟩ : LoopState) = false ∧
    (tick 20 true (1, 1) ⟨0, true, ⟨7, 8⟩, 2⟩).2.count Event.ambientRead = 0 ∧
    (tick 20 true (1, 1) ⟨0, true, ⟨7, 8⟩, 2⟩).1.data_set =
      (⟨0, true, ⟨7, 8⟩, 2⟩ : LoopState).data_set ∧
    (tick 20 true (1, 1) ⟨0, true, ⟨7, 8⟩, 2⟩).1.last_req_time =
      (⟨0, true, ⟨7, 8⟩, 2⟩ : LoopState).last_req_time := by
  have h : isActiveTick 20 (⟨0, true, ⟨7, 8⟩, 2⟩ : LoopState) = false := by
    simp only [isActiveTick, decide_eq_false_iff_not]
    norm_num [sleep_timeout_sec]
  obtain ⟨h1, h2, h3⟩ := C9_no_ambient_poll_in_passive 20 true (1, 1) ⟨0, true, ⟨7, 8⟩, 2⟩ h
  exact ⟨h, h1, h2, h3⟩

/-- C1 (code evaluation): starting ACTIVE at boot (`start_time = 0`,
`is_gui_shown = True`) with `sleep_timeout_sec = 10` and no motion, the
ticks at `t = 11` and `t = 12` are both PASSIVE and **each** invokes
`kill_gui` — the guard `is_gui_shown` is never reassigned, so the trace is
`[killGui, killGui]` and `is_gui_shown` is still `true` afterwards, where
the claim requires a single `kill_gui` and `gui_shown = false`. -/
theorem C1_kill_gui_every_passive_tick :
    (runTicks [(11, false, (0, 0)), (12, false, (0, 0))]
      ⟨0, true, ⟨0, 0⟩, 0⟩).2 = [Event.killGui, Event.killGui] ∧
    (runTicks [(11, false, (0, 0)), (12, false, (0, 0))]
      ⟨0, true, ⟨0, 0⟩, 0⟩).1.is_gui_shown = true := by
  norm_num [runTicks, tick, sleep_timeout_sec]

theorem sysStep_buf (e : SysEvent) (s : SysState) :
    s.buf.length ≤ (sysStep e s).buf.length ∧
    (s.buf.length = BUF_SIZE → (sysStep e s).buf = s.buf) := by
  cases e with
  | tick now motion sense => exact ⟨le_rfl, fun _ => rfl⟩
  | frame f =>
    show s.buf.length ≤ (py_frame_callback f s.buf).length ∧
      (s.buf.length = BUF_SIZE → py_frame_callback f s.buf = s.buf)
    unfold py_frame_callback tryPush
    split
    · exact ⟨le_rfl, fun _ => rfl⟩
    · split
      · rename_i hroom
        constructor
        · simp
        · intro hfull
          rw [hfull] at hroom
          exact absurd hroom (lt_irrefl _)
      · exact ⟨le_rfl, fun _ => rfl⟩

/-- C8: the render loop never pops from the frame queue — a tick leaves the
queue exactly as it was — so over any interleaving of driver frames and
ticks the queue occupancy never decreases, and once the queue holds
`BUF_SIZE` samples it stays exactly that list forever: every later frame is
dropped by the callback. -/
theorem C8_render_loop_never_pops (es : List SysEvent) (s : SysState) :
    (∀ (now : ℚ) (motion : Bool) (sense : ℚ × ℚ),
      (sysStep (SysEvent.tick now motion sense) s).buf = s.buf) ∧
    s.buf.length ≤ (runSys es s).buf.length ∧
    (s.buf.length = BUF_SIZE → (runSys es s).buf = s.buf) := by
  refine ⟨fun _ _ _ => rfl, ?_⟩
  induction es generalizing s with
  | nil => exact ⟨le_rfl, fun _ => rfl⟩
  | cons e rest ih =>
    obtain ⟨hs1, hs2⟩ := sysStep_buf e s
    obtain ⟨ih1, ih2⟩ := ih (sysStep e s)
    constructor
    · exact le_trans hs1 ih1
    · intro hfull
      have hb := hs2 hfull
      have hlen : (sysStep e s).buf.length = BUF_SIZE := by rw [hb]; exact hfull
      show (runSys rest (sysStep e s)).buf = s.buf
      rw [ih2 hlen, hb]

/-- Witness for C8: a full queue of ten identical samples, one further
driver frame and one tick. -/
theorem C8_witness :
    (sysStep (SysEvent.tick 1 false (0, 0))
      ⟨List.replicate 10 ⟨0, [0]⟩, ⟨0, true, ⟨0, 0⟩, 0⟩⟩).buf =
      (⟨List.replicate 10 ⟨0, [0]⟩, ⟨0, true, ⟨0, 0⟩, 0⟩⟩ : SysState).buf ∧
    (⟨List.replicate 10 ⟨0, [0]⟩, ⟨0, true, ⟨0, 0⟩, 0⟩⟩ : SysState).buf.length = BUF_SIZE ∧
    (⟨List.replicate 10 ⟨0, [0]⟩, ⟨0, true, ⟨0, 0⟩, 0⟩⟩ : SysState).buf.length ≤
      (runSys [SysEvent.frame ⟨2, 1, 4, 7, [300, 400]⟩, SysEvent.tick 1 false (0, 0)]
        ⟨List.replicate 10 ⟨0, [0]⟩, ⟨0, true, ⟨0, 0⟩, 0⟩⟩).buf.length ∧
    (runSys [SysEvent.frame ⟨2, 1, 4, 7, [300, 400]⟩, SysEvent.tick 1 false (0, 0)]
      ⟨List.replicate 10 ⟨0, [0]⟩, ⟨0, true, ⟨0, 0⟩, 0⟩⟩).buf =
      (⟨List.replicate 10 ⟨0, [0]⟩, ⟨0, true, ⟨0, 0⟩, 0⟩⟩ : SysState).buf := by
  have hfull : (⟨List.replicate 10 ⟨0, [0]⟩, ⟨0, true, ⟨0, 0⟩, 0⟩⟩ : SysState).buf.length
      = BUF_SIZE := by decide
  obtain ⟨h1, h2, h3⟩ := C8_render_loop_never_pops
    [SysEvent.frame ⟨2, 1, 4, 7, [300, 400]⟩, SysEvent.tick 1 false (0, 0)]
    ⟨List.replicate 10 ⟨0, [0]⟩, ⟨0, true, ⟨0, 0⟩, 0⟩⟩
  exact ⟨h1 1 false (0, 0), hfull, h2, h3 hfull⟩

end SmartMirror
